import Mathlib

/-
Verification of the HealthFlow model-observability and online-experimentation
core: the A/B testing service, the drift detection service, the window
aggregation of the model monitoring service, and the alert manager.

Sources embedded (shallowly) here:
 - services/ai-validation-service/src/services/drift_detection_service.py
 - services/ai-validation-service/src/services/model_monitoring_service.py
 - services/ai-validation-service/src/services/production_monitoring.py

Modelling conventions: Python floats become rationals; datetimes become
explicit numeric time parameters (the code reads datetime.utcnow); the
SQLAlchemy session becomes explicit list-valued tables threaded through the
operations; statistical kernels that are irrational-valued in the source
(scipy t-test and KS test, numpy log for PSI, stdev, percentiles) become
explicit function parameters, so every theorem quantifies over them.
-/

namespace HealthFlow

/-- A/B test status, mirroring `ABTestStatus` in drift_detection_service.py. -/
inductive ABTestStatus
  | RUNNING
  | COMPLETED
  | PAUSED
  | CANCELLED
deriving DecidableEq, Repr

/-- The per-variant metric series stored in `ABTest.metrics`: a dict from
variant to a dict from metric name to the list of recorded values. -/
structure ABMetrics where
  champion : List (String × List ℚ)
  challenger : List (String × List ℚ)
deriving DecidableEq, Repr

/-- One row of the `ab_tests` table (`ABTest` in drift_detection_service.py).
Time is measured in days (the code compares durations against
`timedelta(days=max_duration_days)`). -/
structure ABTest where
  test_id : String
  test_name : String
  champion_model : String
  champion_version : String
  challenger_model : String
  challenger_version : String
  traffic_split : ℚ
  min_sample_size : Nat
  max_duration_days : Nat
  significance_level : ℚ
  status : ABTestStatus
  champion_samples : Nat
  challenger_samples : Nat
  winner : Option String
  statistical_significance : Bool
  metrics : Option ABMetrics
  started_at : ℚ
  completed_at : Option ℚ
deriving DecidableEq, Repr

/-- Embeds `ABTest.query.filter_by(test_id=test_id).first()`. -/
def findTest (tests : List ABTest) (test_id : String) : Option ABTest :=
  tests.find? (fun t => t.test_id == test_id)

/-- Embeds `ABTestingService.route_prediction`.  The md5-based hash
`int(hashlib.md5(request_id.encode()).hexdigest(), 16)` is modelled by an
arbitrary fixed pure function `hash : String → Nat`. -/
def route_prediction (hash : String → Nat) (tests : List ABTest)
    (test_id request_id : String) : Except String (String × String) :=
  match findTest tests test_id with
  | none => Except.error ("Test " ++ test_id ++ " not found or not running")
  | some test =>
    if test.status = ABTestStatus.RUNNING then
      let hash_val := hash request_id
      let assignment : ℚ := ((hash_val % 100 : Nat) : ℚ) / 100
      if assignment < test.traffic_split then
        Except.ok (test.challenger_model, test.challenger_version)
      else
        Except.ok (test.champion_model, test.champion_version)
    else
      Except.error ("Test " ++ test_id ++ " not found or not running")

/-- Embeds `d.get(k, [])` on an assoc-list dict of metric series. -/
def lookupSeries (m : List (String × List ℚ)) (k : String) : List ℚ :=
  match m.find? (fun p => p.1 == k) with
  | some p => p.2
  | none => []

/-- Embeds `if k not in d: d[k] = []` followed by `d[k].append(v)`. -/
def appendSeries (m : List (String × List ℚ)) (k : String) (v : ℚ) :
    List (String × List ℚ) :=
  match m with
  | [] => [(k, [v])]
  | p :: rest =>
    if p.1 == k then (p.1, p.2 ++ [v]) :: rest else p :: appendSeries rest k v

/-- Embeds `np.mean` on a list of rationals. -/
def listMean (xs : List ℚ) : ℚ := xs.sum / xs.length

/-- Replace the (first) test with the given id; models mutating the row the
session returned and committing. -/
def updateTest (tests : List ABTest) (test_id : String) (t : ABTest) :
    List ABTest :=
  match tests with
  | [] => []
  | x :: rest =>
    if x.test_id == test_id then t :: rest else x :: updateTest rest test_id t

/-- Embeds `ABTestingService._complete_test`.  The scipy two-sample t-test
`stats.ttest_ind` is the parameter `ttest`, returning (statistic, p-value);
`now` is `datetime.utcnow()` in days. -/
def complete_test (ttest : List ℚ → List ℚ → ℚ × ℚ) (now : ℚ)
    (test : ABTest) : ABTest :=
  let test := { test with status := ABTestStatus.COMPLETED
                          completed_at := some now }
  match test.metrics with
  | none => test
  | some m =>
    let champion_accuracy := lookupSeries m.champion "accuracy"
    let challenger_accuracy := lookupSeries m.challenger "accuracy"
    if champion_accuracy ≠ [] ∧ challenger_accuracy ≠ [] then
      let champion_mean := listMean champion_accuracy
      let challenger_mean := listMean challenger_accuracy
      let p_value := (ttest champion_accuracy challenger_accuracy).2
      if p_value < test.significance_level then
        if challenger_mean > champion_mean then
          { test with winner := some "challenger" }
        else
          { test with winner := some "champion" }
      else
        { test with winner := none }
    else test

/-- The loop over `test.metrics.get('champion', {}).keys()` in
`ABTestingService._check_test_completion`: the first metric whose two series
both reach the minimum sample size and whose t-test p-value is below the
significance level marks significance and completes the test. -/
def significanceScan (ttest : List ℚ → List ℚ → ℚ × ℚ) (now : ℚ)
    (test : ABTest) (m : ABMetrics) : List String → ABTest
  | [] => test
  | k :: rest =>
    let champion_values := lookupSeries m.champion k
    let challenger_values := lookupSeries m.challenger k
    if champion_values.length ≥ test.min_sample_size ∧
        challenger_values.length ≥ test.min_sample_size then
      if (ttest champion_values challenger_values).2 < test.significance_level then
        complete_test ttest now { test with statistical_significance := true }
      else significanceScan ttest now test m rest
    else significanceScan ttest now test m rest

/-- Embeds `ABTestingService._check_test_completion`: returns unchanged unless both
sample counts reached the minimum; then completes if the maximum duration is
exceeded; otherwise scans the champion metric names for significance. -/
def check_test_completion (ttest : List ℚ → List ℚ → ℚ × ℚ) (now : ℚ)
    (test : ABTest) : ABTest :=
  if test.champion_samples < test.min_sample_size ∨
      test.challenger_samples < test.min_sample_size then
    test
  else if now - test.started_at > (test.max_duration_days : ℚ) then
    complete_test ttest now test
  else
    match test.metrics with
    | none => test
    | some m => significanceScan ttest now test m (m.champion.map Prod.fst)

/-- The per-row update of `ABTestingService.record_result` lines 471-484:
increments the matching variant and appends to its series; an unmatched
(model, version) pair falls through both branches. -/
def recordVariant (test : ABTest) (model_name model_version : String)
    (metric_value : ℚ) (metric_name : String) : ABTest :=
  let m := test.metrics.getD ⟨[], []⟩
  if model_name = test.champion_model ∧ model_version = test.champion_version then
    { test with champion_samples := test.champion_samples + 1
                metrics := some { m with
                  champion := appendSeries m.champion metric_name metric_value } }
  else if model_name = test.challenger_model ∧
      model_version = test.challenger_version then
    { test with challenger_samples := test.challenger_samples + 1
                metrics := some { m with
                  challenger := appendSeries m.challenger metric_name metric_value } }
  else test

/-- Lines 464-468 of record_result: initialize the metrics dict when unset
(the Python dict holds empty defaultdicts for both variants). -/
def initMetrics (test : ABTest) : ABTest :=
  if test.metrics = none then { test with metrics := some ⟨[], []⟩ } else test

/-- Embeds `ABTestingService.record_result`: looks up the test (error when absent,
with no status check), initializes the metrics dict when unset, records the
variant result, then runs the completion check. -/
def record_result (ttest : List ℚ → List ℚ → ℚ × ℚ) (now : ℚ)
    (tests : List ABTest) (test_id model_name model_version : String)
    (metric_value : ℚ) (metric_name : String) :
    Except String (List ABTest) :=
  match findTest tests test_id with
  | none => Except.error ("Test " ++ test_id ++ " not found")
  | some test =>
    let test := initMetrics test
    let test := recordVariant test model_name model_version metric_value metric_name
    let test := check_test_completion ttest now test
    Except.ok (updateTest tests test_id test)

/-- Embeds `ABTestingService.pause_test`: unconditionally sets PAUSED on any found
test. -/
def pause_test (tests : List ABTest) (test_id : String) : List ABTest :=
  match findTest tests test_id with
  | none => tests
  | some t => updateTest tests test_id { t with status := ABTestStatus.PAUSED }

/-- Embeds `ABTestingService.resume_test`: sets RUNNING only when currently
PAUSED. -/
def resume_test (tests : List ABTest) (test_id : String) : List ABTest :=
  match findTest tests test_id with
  | none => tests
  | some t =>
    if t.status = ABTestStatus.PAUSED then
      updateTest tests test_id { t with status := ABTestStatus.RUNNING }
    else tests

/-- Embeds `ABTestingService.cancel_test`: unconditionally sets CANCELLED on any
found test. -/
def cancel_test (now : ℚ) (tests : List ABTest) (test_id : String) :
    List ABTest :=
  match findTest tests test_id with
  | none => tests
  | some t =>
    updateTest tests test_id
      { t with status := ABTestStatus.CANCELLED, completed_at := some now }

/-- Embeds `ABTestingService.create_ab_test`: constructs the row with the column
defaults (status RUNNING, significance level 0.05, zero samples) and persists
it with no validation of any argument. -/
def create_ab_test (test_id : String) (now : ℚ) (tests : List ABTest)
    (test_name champion_model champion_version
      challenger_model challenger_version : String)
    (traffic_split : ℚ) (min_sample_size : Nat) (max_duration_days : Nat) :
    ABTest × List ABTest :=
  let test : ABTest :=
    { test_id := test_id
      test_name := test_name
      champion_model := champion_model
      champion_version := champion_version
      challenger_model := challenger_model
      challenger_version := challenger_version
      traffic_split := traffic_split
      min_sample_size := min_sample_size
      max_duration_days := max_duration_days
      significance_level := 5/100
      status := ABTestStatus.RUNNING
      champion_samples := 0
      challenger_samples := 0
      winner := none
      statistical_significance := false
      metrics := none
      started_at := now
      completed_at := none }
  (test, tests ++ [test])

/-- A concrete running test used by the witnesses. -/
def sampleRunningTest : ABTest :=
  { test_id := "ABT-1"
    test_name := "ocr v2 vs v3"
    champion_model := "ocr"
    champion_version := "2"
    challenger_model := "ocr"
    challenger_version := "3"
    traffic_split := 1/2
    min_sample_size := 10
    max_duration_days := 14
    significance_level := 5/100
    status := ABTestStatus.RUNNING
    champion_samples := 0
    challenger_samples := 0
    winner := none
    statistical_significance := false
    metrics := none
    started_at := 0
    completed_at := none }

/-- Claim C1: for a RUNNING experiment, routing is the pure deterministic
function of (hash request_id, traffic_split) that maps the hash into [0,1)
via hash mod 100 / 100 and returns the challenger model and version exactly
when that value is strictly below the traffic split, the champion otherwise;
hence repeated calls with the same request id return the same variant. -/
theorem route_prediction_deterministic_split (hash : String → Nat)
    (tests : List ABTest) (test_id request_id : String) (t : ABTest)
    (hfind : findTest tests test_id = some t)
    (hrun : t.status = ABTestStatus.RUNNING) :
    route_prediction hash tests test_id request_id =
      Except.ok (if ((hash request_id % 100 : Nat) : ℚ) / 100 < t.traffic_split
        then (t.challenger_model, t.challenger_version)
        else (t.champion_model, t.champion_version)) ∧
    (∀ tests2 t2, findTest tests2 test_id = some t2 →
      t2.status = ABTestStatus.RUNNING →
      t2.traffic_split = t.traffic_split →
      t2.challenger_model = t.challenger_model →
      t2.challenger_version = t.challenger_version →
      t2.champion_model = t.champion_model →
      t2.champion_version = t.champion_version →
      route_prediction hash tests2 test_id request_id =
        route_prediction hash tests test_id request_id) := by
  constructor
  · unfold route_prediction
    rw [hfind]
    simp only [hrun, if_true]
    split <;> rfl
  · intro tests2 t2 hfind2 hrun2 hsplit hchm hchv hcm hcv
    unfold route_prediction
    rw [hfind, hfind2]
    simp only [hrun, hrun2, if_true, hsplit, hchm, hchv, hcm, hcv]

/-- Witness for C1: a concrete routing call, with hash value 5 so that
5/100 < 1/2 selects the challenger. -/
theorem route_prediction_deterministic_split_witness :
    route_prediction (fun s => s.length) [sampleRunningTest] "ABT-1" "req-1" =
      Except.ok ("ocr", "3") := by
  have h := (route_prediction_deterministic_split (fun s => s.length)
    [sampleRunningTest] "ABT-1" "req-1" sampleRunningTest rfl rfl).1
  rw [h]
  have hlen : "req-1".length = 5 := rfl
  rw [hlen]
  norm_num [sampleRunningTest]

/-- The test the witnesses use in terminal status. -/
def sampleCompletedTest : ABTest :=
  { sampleRunningTest with status := ABTestStatus.COMPLETED }

/-- A running test far past its maximum duration with the champion below the
minimum sample size. -/
def overdueTest : ABTest :=
  { sampleRunningTest with champion_samples := 4, challenger_samples := 20 }

theorem findTest_cons (x : ABTest) (rest : List ABTest) (test_id : String) :
    findTest (x :: rest) test_id =
      if x.test_id == test_id then some x else findTest rest test_id := by
  by_cases hx : (x.test_id == test_id) = true
  · rw [if_pos hx]
    exact List.find?_cons_of_pos rest hx
  · rw [if_neg hx]
    exact List.find?_cons_of_neg rest (by simpa using hx)

theorem findTest_updateTest (tests : List ABTest) (test_id : String)
    (t t2 : ABTest) (h : findTest tests test_id = some t)
    (hid : (t2.test_id == test_id) = true) :
    findTest (updateTest tests test_id t2) test_id = some t2 := by
  induction tests with
  | nil => simp [findTest] at h
  | cons x rest ih =>
    by_cases hx : (x.test_id == test_id) = true
    · unfold updateTest
      rw [if_pos hx, findTest_cons, if_pos hid]
    · unfold updateTest
      rw [if_neg hx, findTest_cons, if_neg hx]
      rw [findTest_cons, if_neg hx] at h
      exact ih h

theorem complete_test_fields (ttest : List ℚ → List ℚ → ℚ × ℚ) (now : ℚ)
    (test : ABTest) :
    (complete_test ttest now test).champion_samples = test.champion_samples ∧
    (complete_test ttest now test).challenger_samples = test.challenger_samples ∧
    (complete_test ttest now test).metrics = test.metrics ∧
    (complete_test ttest now test).status = ABTestStatus.COMPLETED ∧
    (complete_test ttest now test).test_id = test.test_id := by
  unfold complete_test
  dsimp only
  split
  · exact ⟨rfl, rfl, rfl, rfl, rfl⟩
  · split
    · split
      · split
        · exact ⟨rfl, rfl, rfl, rfl, rfl⟩
        · exact ⟨rfl, rfl, rfl, rfl, rfl⟩
      · exact ⟨rfl, rfl, rfl, rfl, rfl⟩
    · exact ⟨rfl, rfl, rfl, rfl, rfl⟩

theorem significanceScan_fields (ttest : List ℚ → List ℚ → ℚ × ℚ) (now : ℚ)
    (test : ABTest) (m : ABMetrics) (keys : List String) :
    (significanceScan ttest now test m keys).champion_samples = test.champion_samples ∧
    (significanceScan ttest now test m keys).challenger_samples = test.challenger_samples ∧
    (significanceScan ttest now test m keys).metrics = test.metrics ∧
    (significanceScan ttest now test m keys).test_id = test.test_id := by
  induction keys with
  | nil => exact ⟨rfl, rfl, rfl, rfl⟩
  | cons k rest ih =>
    unfold significanceScan
    dsimp only
    split
    · split
      · obtain ⟨h1, h2, h3, h4, h5⟩ := complete_test_fields ttest now
          { test with statistical_significance := true }
        exact ⟨h1, h2, h3, h5⟩
      · exact ih
    · exact ih

theorem check_test_completion_fields (ttest : List ℚ → List ℚ → ℚ × ℚ)
    (now : ℚ) (test : ABTest) :
    (check_test_completion ttest now test).champion_samples = test.champion_samples ∧
    (check_test_completion ttest now test).challenger_samples = test.challenger_samples ∧
    (check_test_completion ttest now test).metrics = test.metrics ∧
    (check_test_completion ttest now test).test_id = test.test_id := by
  unfold check_test_completion
  split
  · exact ⟨rfl, rfl, rfl, rfl⟩
  · split
    · obtain ⟨h1, h2, h3, h4, h5⟩ := complete_test_fields ttest now test
      exact ⟨h1, h2, h3, h5⟩
    · split
      · exact ⟨rfl, rfl, rfl, rfl⟩
      · next m htm =>
        obtain ⟨h1, h2, h3, h4⟩ :=
          significanceScan_fields ttest now test m (m.champion.map Prod.fst)
        exact ⟨h1, h2, h3, h4⟩

/-- Claim C2 counterexample: record_result on a COMPLETED experiment does not
fail; it succeeds and increments the champion sample count and series. -/
theorem record_result_completed_succeeds_mutates :
    record_result (fun _ _ => (0, 1)) 1 [sampleCompletedTest] "ABT-1" "ocr" "2"
        (9/10) "accuracy" =
      Except.ok [{ sampleCompletedTest with
        champion_samples := 1
        metrics := some ⟨[("accuracy", [9/10])], []⟩ }] := rfl

/-- Claim C2 (amended): routing a non-RUNNING experiment fails with an error,
but record_result performs no status check: it succeeds on any existing
experiment whatever its status. -/
theorem route_error_record_ok_not_running (hash : String → Nat)
    (ttest : List ℚ → List ℚ → ℚ × ℚ) (now : ℚ) (tests : List ABTest)
    (test_id request_id model_name model_version : String)
    (metric_value : ℚ) (metric_name : String) (t : ABTest)
    (hfind : findTest tests test_id = some t)
    (hstat : t.status ≠ ABTestStatus.RUNNING) :
    route_prediction hash tests test_id request_id =
      Except.error ("Test " ++ test_id ++ " not found or not running") ∧
    ∃ tests2, record_result ttest now tests test_id model_name model_version
        metric_value metric_name = Except.ok tests2 := by
  constructor
  · unfold route_prediction
    rw [hfind]
    simp [hstat]
  · unfold record_result
    rw [hfind]
    exact ⟨_, rfl⟩

/-- Witness for the amended C2 at a concrete COMPLETED experiment. -/
theorem route_error_record_ok_not_running_witness :
    sampleCompletedTest.status ≠ ABTestStatus.RUNNING ∧
    (route_prediction (fun s => s.length) [sampleCompletedTest] "ABT-1" "r" =
      Except.error ("Test " ++ "ABT-1" ++ " not found or not running") ∧
    ∃ tests2, record_result (fun _ _ => (0, 1)) 1 [sampleCompletedTest] "ABT-1"
        "x" "y" 1 "m" = Except.ok tests2) :=
  ⟨by decide, route_error_record_ok_not_running (fun s => s.length)
    (fun _ _ => (0, 1)) 1 [sampleCompletedTest] "ABT-1" "r" "x" "y" 1 "m"
    sampleCompletedTest rfl (by decide)⟩

/-- Claim C3 counterexample: pausing a COMPLETED experiment moves its status
to PAUSED, so the terminal state is not absorbing. -/
theorem pause_test_resurrects_completed :
    pause_test [sampleCompletedTest] "ABT-1" =
      [{ sampleCompletedTest with status := ABTestStatus.PAUSED }] := rfl

/-- Claim C3 (amended): resume only transitions PAUSED to RUNNING (and is a
no-op otherwise), but pause and cancel set PAUSED and CANCELLED
unconditionally on any found experiment, whatever its current status; in
particular COMPLETED and CANCELLED are not absorbing states. -/
theorem lifecycle_status_transitions (tests : List ABTest) (test_id : String)
    (now : ℚ) (t : ABTest) (hfind : findTest tests test_id = some t) :
    pause_test tests test_id =
      updateTest tests test_id { t with status := ABTestStatus.PAUSED } ∧
    cancel_test now tests test_id =
      updateTest tests test_id
        { t with status := ABTestStatus.CANCELLED, completed_at := some now } ∧
    (t.status = ABTestStatus.PAUSED →
      resume_test tests test_id =
        updateTest tests test_id { t with status := ABTestStatus.RUNNING }) ∧
    (t.status ≠ ABTestStatus.PAUSED → resume_test tests test_id = tests) := by
  refine ⟨?_, ?_, ?_, ?_⟩
  · simp [pause_test, hfind]
  · simp [cancel_test, hfind]
  · intro h
    simp [resume_test, hfind, h]
  · intro h
    simp [resume_test, hfind, h]

/-- Witness for the amended C3 at a concrete CANCELLED experiment. -/
theorem lifecycle_status_transitions_witness :
    ({ sampleRunningTest with status := ABTestStatus.CANCELLED } : ABTest).status ≠
      ABTestStatus.PAUSED ∧
    resume_test [{ sampleRunningTest with status := ABTestStatus.CANCELLED }]
      "ABT-1" = [{ sampleRunningTest with status := ABTestStatus.CANCELLED }] :=
  ⟨by decide, (lifecycle_status_transitions
    [{ sampleRunningTest with status := ABTestStatus.CANCELLED }] "ABT-1" 0
    { sampleRunningTest with status := ABTestStatus.CANCELLED } rfl).2.2.2
    (by decide)⟩

/-- Claim C4 counterexample: a RUNNING experiment 100 days past start with a
14-day maximum duration and a champion below the minimum sample size is not
completed by record_result (its status stays RUNNING): the minimum-sample
gate is evaluated before the duration check. -/
theorem record_result_overdue_below_min_stays_running :
    record_result (fun _ _ => (0, 0)) 100 [overdueTest] "ABT-1" "ocr" "2"
        (9/10) "accuracy" =
      Except.ok [{ overdueTest with
        champion_samples := 5
        metrics := some ⟨[("accuracy", [9/10])], []⟩ }] := rfl

/-- Claim C4 (amended): the completion check returns the experiment unchanged
whenever either variant is below the minimum sample size (even past the
maximum duration); only once both are at or above it does an exceeded
duration complete the experiment immediately. -/
theorem check_test_completion_gating (ttest : List ℚ → List ℚ → ℚ × ℚ)
    (now : ℚ) (test : ABTest) :
    (test.champion_samples < test.min_sample_size ∨
        test.challenger_samples < test.min_sample_size →
      check_test_completion ttest now test = test) ∧
    (test.min_sample_size ≤ test.champion_samples →
      test.min_sample_size ≤ test.challenger_samples →
      now - test.started_at > (test.max_duration_days : ℚ) →
      check_test_completion ttest now test = complete_test ttest now test ∧
      (check_test_completion ttest now test).status = ABTestStatus.COMPLETED) := by
  constructor
  · intro h
    unfold check_test_completion
    simp [h]
  · intro h1 h2 h3
    have hgate : ¬(test.champion_samples < test.min_sample_size ∨
        test.challenger_samples < test.min_sample_size) := by omega
    have heq : check_test_completion ttest now test = complete_test ttest now test := by
      unfold check_test_completion
      rw [if_neg hgate, if_pos h3]
    refine ⟨heq, ?_⟩
    rw [heq]
    exact (complete_test_fields ttest now test).2.2.2.1

/-- Witness for the amended C4: both gates at concrete experiments. -/
theorem check_test_completion_gating_witness :
    (overdueTest.champion_samples < overdueTest.min_sample_size ∨
      overdueTest.challenger_samples < overdueTest.min_sample_size) ∧
    check_test_completion (fun _ _ => (0, 0)) 100 overdueTest = overdueTest :=
  ⟨Or.inl (by decide),
    (check_test_completion_gating (fun _ _ => (0, 0)) 100 overdueTest).1
      (Or.inl (by decide))⟩

/-- Claim C8 counterexample: creating an experiment with traffic split 3/2,
outside [0,1], does not fail: the experiment is created and persisted with
the invalid split. -/
theorem create_ab_test_accepts_invalid_split :
    (create_ab_test "ABT-9" 0 [] "t" "ocr" "2" "ocr" "3" (3/2) 1000 14).1.traffic_split
        = 3/2 ∧
    (create_ab_test "ABT-9" 0 [] "t" "ocr" "2" "ocr" "3" (3/2) 1000 14).2 =
      [(create_ab_test "ABT-9" 0 [] "t" "ocr" "2" "ocr" "3" (3/2) 1000 14).1] :=
  ⟨rfl, rfl⟩

/-- Claim C8 (amended): create_ab_test performs no configuration validation:
for every traffic split, valid or not, it returns and persists the
experiment carrying exactly that split, with status RUNNING. -/
theorem create_ab_test_no_validation (test_id : String) (now : ℚ)
    (tests : List ABTest) (n cm cv chm chv : String) (split : ℚ)
    (mss mdd : Nat) :
    (create_ab_test test_id now tests n cm cv chm chv split mss mdd).1.traffic_split
        = split ∧
    (create_ab_test test_id now tests n cm cv chm chv split mss mdd).1.status
        = ABTestStatus.RUNNING ∧
    (create_ab_test test_id now tests n cm cv chm chv split mss mdd).2 =
      tests ++ [(create_ab_test test_id now tests n cm cv chm chv split mss mdd).1] :=
  ⟨rfl, rfl, rfl⟩

/-- Claim C10: record_result with a (model, version) pair matching neither
champion nor challenger succeeds with no error and leaves both sample counts
and every metric series of both variants unchanged. -/
theorem record_result_unmatched_is_dropped (ttest : List ℚ → List ℚ → ℚ × ℚ)
    (now : ℚ) (tests : List ABTest)
    (test_id model_name model_version metric_name : String) (metric_value : ℚ)
    (t : ABTest) (hfind : findTest tests test_id = some t)
    (hch : ¬(model_name = t.champion_model ∧ model_version = t.champion_version))
    (hcl : ¬(model_name = t.challenger_model ∧ model_version = t.challenger_version)) :
    ∃ tests2, record_result ttest now tests test_id model_name model_version
        metric_value metric_name = Except.ok tests2 ∧
      ∃ t2, findTest tests2 test_id = some t2 ∧
        t2.champion_samples = t.champion_samples ∧
        t2.challenger_samples = t.challenger_samples ∧
        (∀ k, lookupSeries (t2.metrics.getD ⟨[], []⟩).champion k =
          lookupSeries (t.metrics.getD ⟨[], []⟩).champion k) ∧
        (∀ k, lookupSeries (t2.metrics.getD ⟨[], []⟩).challenger k =
          lookupSeries (t.metrics.getD ⟨[], []⟩).challenger k) := by
  have hid : (t.test_id == test_id) = true := by
    unfold findTest at hfind
    have h12 := List.find?_some hfind
    exact h12
  have hfields : (initMetrics t).champion_samples = t.champion_samples ∧
      (initMetrics t).challenger_samples = t.challenger_samples ∧
      (initMetrics t).metrics.getD ⟨[], []⟩ = t.metrics.getD ⟨[], []⟩ ∧
      (initMetrics t).test_id = t.test_id ∧
      (initMetrics t).champion_model = t.champion_model ∧
      (initMetrics t).champion_version = t.champion_version ∧
      (initMetrics t).challenger_model = t.challenger_model ∧
      (initMetrics t).challenger_version = t.challenger_version := by
    unfold initMetrics
    by_cases htm : t.metrics = none
    · rw [if_pos htm]
      refine ⟨rfl, rfl, ?_, rfl, rfl, rfl, rfl, rfl⟩
      rw [htm]
      rfl
    · rw [if_neg htm]
      exact ⟨rfl, rfl, rfl, rfl, rfl, rfl, rfl, rfl⟩
  have h1 : ¬(model_name = (initMetrics t).champion_model ∧
      model_version = (initMetrics t).champion_version) := by
    rw [hfields.2.2.2.2.1, hfields.2.2.2.2.2.1]
    exact hch
  have h2 : ¬(model_name = (initMetrics t).challenger_model ∧
      model_version = (initMetrics t).challenger_version) := by
    rw [hfields.2.2.2.2.2.2.1, hfields.2.2.2.2.2.2.2]
    exact hcl
  have hrec : recordVariant (initMetrics t) model_name model_version
      metric_value metric_name = initMetrics t := by
    simp only [recordVariant]
    rw [if_neg h1, if_neg h2]
  have hmain : record_result ttest now tests test_id model_name model_version
      metric_value metric_name =
      Except.ok (updateTest tests test_id
        (check_test_completion ttest now (initMetrics t))) := by
    unfold record_result
    rw [hfind]
    dsimp only
    rw [hrec]
  obtain ⟨hc1, hc2, hc3, hc4⟩ := check_test_completion_fields ttest now (initMetrics t)
  refine ⟨_, hmain, check_test_completion ttest now (initMetrics t),
    ?_, ?_, ?_, ?_, ?_⟩
  · apply findTest_updateTest tests test_id t _ hfind
    rw [hc4, hfields.2.2.2.1]
    exact hid
  · rw [hc1, hfields.1]
  · rw [hc2, hfields.2.1]
  · intro k
    rw [hc3, hfields.2.2.1]
  · intro k
    rw [hc3, hfields.2.2.1]

/-- Witness for C10: a concrete unmatched model and version pair. -/
theorem record_result_unmatched_is_dropped_witness :
    ¬("other" = sampleRunningTest.champion_model ∧
      "9" = sampleRunningTest.champion_version) ∧
    ∃ tests2, record_result (fun _ _ => (0, 1)) 1 [sampleRunningTest] "ABT-1"
        "other" "9" 1 "accuracy" = Except.ok tests2 ∧
      ∃ t2, findTest tests2 "ABT-1" = some t2 ∧
        t2.champion_samples = sampleRunningTest.champion_samples ∧
        t2.challenger_samples = sampleRunningTest.challenger_samples ∧
        (∀ k, lookupSeries (t2.metrics.getD ⟨[], []⟩).champion k =
          lookupSeries (sampleRunningTest.metrics.getD ⟨[], []⟩).champion k) ∧
        (∀ k, lookupSeries (t2.metrics.getD ⟨[], []⟩).challenger k =
          lookupSeries (sampleRunningTest.metrics.getD ⟨[], []⟩).challenger k) :=
  ⟨by decide, record_result_unmatched_is_dropped (fun _ _ => (0, 1)) 1
    [sampleRunningTest] "ABT-1" "other" "9" "accuracy" 1 sampleRunningTest rfl
    (by decide) (by decide)⟩

/-
Embedding of model_monitoring_service.py: ModelPrediction rows, the window
grouping and the aggregated-metric computation.
-/

/-- The datetime fields that `_group_into_windows` manipulates through
`timestamp.replace(minute=..., second=0, microsecond=0)`: an abstract day
index plus hour, minute, second and microsecond. -/
structure Timestamp where
  day : Nat
  hour : Nat
  minute : Nat
  second : Nat
  microsecond : Nat
deriving DecidableEq, Repr

/-- Whole minutes since the epoch of the day index. -/
def Timestamp.toMinutes (t : Timestamp) : Nat :=
  t.day * 1440 + t.hour * 60 + t.minute

/-- Microsecond-resolution key, used for ordering and range comparisons. -/
def Timestamp.sortKey (t : Timestamp) : Nat :=
  (t.toMinutes * 60 + t.second) * 1000000 + t.microsecond

/-- Timestamp addition by whole minutes (used for `window_end =
window_start + timedelta(minutes=window_size_minutes)`; the seconds and
microseconds of a window start are zero). -/
def Timestamp.addMinutes (t : Timestamp) (m : Nat) : Timestamp :=
  let total := t.toMinutes + m
  { day := total / 1440
    hour := total % 1440 / 60
    minute := total % 60
    second := t.second
    microsecond := t.microsecond }

/-- One row of the `model_predictions` table (`ModelPrediction`).  The
`prediction` payload and hashes are irrelevant to the embedded operations and
omitted; `ground_truth` and `is_correct` keep exactly the structure the
aggregation reads (truthiness and per-field booleans). -/
structure ModelPrediction where
  prediction_id : String
  model_name : String
  model_version : String
  model_stage : String
  confidence_score : Option ℚ
  latency_ms : ℚ
  timestamp : Timestamp
  ground_truth : Option (List (String × String))
  is_correct : Option (List (String × Bool))
deriving DecidableEq, Repr

/-- One row of the `model_metrics` table (`ModelMetric`). -/
structure ModelMetric where
  model_name : String
  model_version : String
  window_start : Timestamp
  window_end : Timestamp
  window_size_minutes : Nat
  metric_type : String
  metric_value : ℚ
  min_value : Option ℚ
  max_value : Option ℚ
  std_dev : Option ℚ
  percentile_95 : Option ℚ
  sample_count : Nat
deriving DecidableEq, Repr

/-- The bucket key of `_group_into_windows`:
`pred.timestamp.replace(minute=(minute // ws) * ws, second=0,
microsecond=0)` — only the minute within the hour is truncated. -/
def windowStart (t : Timestamp) (window_size_minutes : Nat) : Timestamp :=
  { t with minute := t.minute / window_size_minutes * window_size_minutes
           second := 0
           microsecond := 0 }

/-- Embeds `windows[key].append(pred)` on the insertion-ordered defaultdict. -/
def addToWindow (acc : List (Timestamp × List ModelPrediction))
    (key : Timestamp) (p : ModelPrediction) :
    List (Timestamp × List ModelPrediction) :=
  match acc with
  | [] => [(key, [p])]
  | (k, ps) :: rest =>
    if k = key then (k, ps ++ [p]) :: rest
    else (k, ps) :: addToWindow rest key p

/-- Embeds `ModelMonitoringService._group_into_windows`. -/
def group_into_windows (predictions : List ModelPrediction)
    (window_size_minutes : Nat) : List (Timestamp × List ModelPrediction) :=
  predictions.foldl
    (fun acc p => addToWindow acc (windowStart p.timestamp window_size_minutes) p)
    []

/-- Embeds `min` of a nonempty list (0 as the never-used empty default). -/
def listMin (xs : List ℚ) : ℚ :=
  match xs with
  | [] => 0
  | x :: rest => rest.foldl (fun a b => if b < a then b else a) x

/-- Embeds `max` of a nonempty list. -/
def listMax (xs : List ℚ) : ℚ :=
  match xs with
  | [] => 0
  | x :: rest => rest.foldl (fun a b => if b > a then b else a) x

/-- The irrational-valued statistics used to fill MetricWindow rows:
`statistics.stdev` and `np.percentile(values, 95)` are kept abstract. -/
structure StatKernel where
  stdev : List ℚ → ℚ
  percentile95 : List ℚ → ℚ

/-- Python truthiness of an optional dict: None and the empty dict are
falsy. -/
def truthyDict {α : Type} (o : Option (List α)) : Bool :=
  match o with
  | none => false
  | some l => !l.isEmpty

/-- Embeds `correct_fields / total_fields if total_fields > 0 else 0`. -/
def correctRatio (ic : List (String × Bool)) : ℚ :=
  if ic.length > 0 then ((ic.filter (fun f => f.2)).length : ℚ) / ic.length
  else 0

/-- Embeds `max(set(versions), key=count)`: the most common model version in a
window.  The source iterates a Python set whose order is unspecified; this
embedding resolves ties to the first-seen version. -/
def mostCommonVersion (preds : List ModelPrediction) : String :=
  let versions := (preds.map (fun p => p.model_version)).dedup
  match versions with
  | [] => ""
  | v :: rest =>
    rest.foldl
      (fun best v2 =>
        if (preds.filter (fun p => p.model_version == v2)).length >
            (preds.filter (fun p => p.model_version == best)).length then v2
        else best) v

/-- Embeds `ModelMonitoringService._calculate_window_metrics`: confidence, latency,
accuracy (when ground truth is present) and throughput rows for one
window. -/
def calculate_window_metrics (k : StatKernel) (model_name : String)
    (predictions : List ModelPrediction) (window_start window_end : Timestamp)
    (window_size_minutes : Nat) : List ModelMetric :=
  if predictions.isEmpty then []
  else
    let model_version := mostCommonVersion predictions
    let confidences := predictions.filterMap (fun p => p.confidence_score)
    let confMetrics : List ModelMetric :=
      if confidences ≠ [] then
        [{ model_name := model_name
           model_version := model_version
           window_start := window_start
           window_end := window_end
           window_size_minutes := window_size_minutes
           metric_type := "confidence"
           metric_value := listMean confidences
           min_value := some (listMin confidences)
           max_value := some (listMax confidences)
           std_dev := some (if confidences.length > 1 then k.stdev confidences else 0)
           percentile_95 := some (k.percentile95 confidences)
           sample_count := confidences.length }]
      else []
    let latencies := predictions.map (fun p => p.latency_ms)
    let latMetrics : List ModelMetric :=
      [{ model_name := model_name
         model_version := model_version
         window_start := window_start
         window_end := window_end
         window_size_minutes := window_size_minutes
         metric_type := "latency"
         metric_value := listMean latencies
         min_value := some (listMin latencies)
         max_value := some (listMax latencies)
         std_dev := some (if latencies.length > 1 then k.stdev latencies else 0)
         percentile_95 := some (k.percentile95 latencies)
         sample_count := latencies.length }]
    let predictions_with_truth := predictions.filter
      (fun p => truthyDict p.ground_truth && truthyDict p.is_correct)
    let correct_counts := predictions_with_truth.filterMap (fun p =>
      match p.is_correct with
      | some ic => if !ic.isEmpty then some (correctRatio ic) else none
      | none => none)
    let accMetrics : List ModelMetric :=
      if correct_counts ≠ [] then
        [{ model_name := model_name
           model_version := model_version
           window_start := window_start
           window_end := window_end
           window_size_minutes := window_size_minutes
           metric_type := "accuracy"
           metric_value := listMean correct_counts
           min_value := some (listMin correct_counts)
           max_value := some (listMax correct_counts)
           std_dev := some (if correct_counts.length > 1 then k.stdev correct_counts else 0)
           percentile_95 := none
           sample_count := correct_counts.length }]
      else []
    let throughput := (predictions.length : ℚ) / ((window_size_minutes : ℚ) / 60)
    let thrMetrics : List ModelMetric :=
      [{ model_name := model_name
         model_version := model_version
         window_start := window_start
         window_end := window_end
         window_size_minutes := window_size_minutes
         metric_type := "throughput"
         metric_value := throughput
         min_value := none
         max_value := none
         std_dev := none
         percentile_95 := none
         sample_count := predictions.length }]
    confMetrics ++ latMetrics ++ accMetrics ++ thrMetrics

/-- The two tables the monitoring service reads and writes. -/
structure MonitoringState where
  predictions : List ModelPrediction
  model_metrics : List ModelMetric
deriving Repr

/-- The rows `calculate_aggregated_metrics` computes before persisting them:
the query filtered by model name and lookback start, ordered by timestamp,
grouped into windows, with per-window metrics concatenated in window
order. -/
def computedMetrics (k : StatKernel) (model_name : String)
    (window_size_minutes : Nat) (start_time : Timestamp)
    (preds : List ModelPrediction) : List ModelMetric :=
  let predictions := List.insertionSort
    (fun a b => a.timestamp.sortKey ≤ b.timestamp.sortKey)
    (preds.filter (fun p =>
      p.model_name == model_name &&
      decide (start_time.sortKey ≤ p.timestamp.sortKey)))
  if predictions.isEmpty then []
  else
    let windows := group_into_windows predictions window_size_minutes
    windows.foldl
      (fun acc w => acc ++ calculate_window_metrics k model_name w.2 w.1
        (w.1.addMinutes window_size_minutes) window_size_minutes) []

/-- Embeds `ModelMonitoringService.calculate_aggregated_metrics`: computes the rows
and appends every one of them to the metrics table with `db.session.add`
(there is no lookup or overwrite of existing same-key rows). -/
def calculate_aggregated_metrics (k : StatKernel) (model_name : String)
    (window_size_minutes : Nat) (start_time : Timestamp)
    (s : MonitoringState) : MonitoringState × List ModelMetric :=
  let metrics := computedMetrics k model_name window_size_minutes start_time
    s.predictions
  ({ s with model_metrics := s.model_metrics ++ metrics }, metrics)

/-- Kernel instance whose abstract statistics are constantly zero, used for
concrete evaluations. -/
def dummyKernel : StatKernel := ⟨fun _ => 0, fun _ => 0⟩

/-- The epoch timestamp. -/
def epochTs : Timestamp := ⟨0, 0, 0, 0, 0⟩

/-- A concrete prediction five minutes past the epoch. -/
def samplePrediction : ModelPrediction :=
  { prediction_id := "P1"
    model_name := "ocr"
    model_version := "2"
    model_stage := "Production"
    confidence_score := some 1
    latency_ms := 1
    timestamp := ⟨0, 0, 5, 0, 0⟩
    ground_truth := none
    is_correct := none }

/-- A prediction at an arbitrary timestamp. -/
def predAt (t : Timestamp) : ModelPrediction :=
  { samplePrediction with timestamp := t }

/-- A store holding one prediction and no materialized metrics. -/
def sampleMonState : MonitoringState := ⟨[samplePrediction], []⟩

/-- Claim C5 counterexample: over a store with one prediction, running the
aggregation twice leaves a metrics table different from the one a single run
leaves (the three computed rows are appended a second time, not
overwritten). -/
theorem aggregation_second_run_duplicates_rows :
    (calculate_aggregated_metrics dummyKernel "ocr" 60 epochTs
        (calculate_aggregated_metrics dummyKernel "ocr" 60 epochTs
          sampleMonState).1).1.model_metrics ≠
      (calculate_aggregated_metrics dummyKernel "ocr" 60 epochTs
        sampleMonState).1.model_metrics := by
  intro h
  have hlen := congrArg List.length h
  revert hlen
  decide

/-- Claim C5 (amended): the aggregation appends its computed rows to the
metrics table; a second run over the same predictions appends the same rows
a second time, so whenever a run produces any row, re-running is not
idempotent: the table after two runs differs from the table after one. -/
theorem calculate_aggregated_metrics_appends (k : StatKernel)
    (model_name : String) (ws : Nat) (start_time : Timestamp)
    (s : MonitoringState) :
    (calculate_aggregated_metrics k model_name ws start_time s).1.model_metrics =
      s.model_metrics ++ computedMetrics k model_name ws start_time s.predictions ∧
    (calculate_aggregated_metrics k model_name ws start_time
        (calculate_aggregated_metrics k model_name ws start_time s).1).1.model_metrics =
      s.model_metrics ++ computedMetrics k model_name ws start_time s.predictions
        ++ computedMetrics k model_name ws start_time s.predictions ∧
    (computedMetrics k model_name ws start_time s.predictions ≠ [] →
      (calculate_aggregated_metrics k model_name ws start_time
        (calculate_aggregated_metrics k model_name ws start_time s).1).1.model_metrics ≠
      (calculate_aggregated_metrics k model_name ws start_time s).1.model_metrics) := by
  refine ⟨rfl, rfl, ?_⟩
  intro hne heq
  have hlen := congrArg List.length heq
  simp only [calculate_aggregated_metrics, List.length_append] at hlen
  have : (computedMetrics k model_name ws start_time s.predictions).length ≠ 0 := by
    intro h0
    exact hne (List.length_eq_zero.mp h0)
  omega

/-- Witness for the amended C5: the one-prediction store computes a nonempty
row list, so the second run demonstrably changes the table. -/
theorem calculate_aggregated_metrics_appends_witness :
    computedMetrics dummyKernel "ocr" 60 epochTs sampleMonState.predictions ≠ [] ∧
    (calculate_aggregated_metrics dummyKernel "ocr" 60 epochTs
        (calculate_aggregated_metrics dummyKernel "ocr" 60 epochTs
          sampleMonState).1).1.model_metrics ≠
      (calculate_aggregated_metrics dummyKernel "ocr" 60 epochTs
        sampleMonState).1.model_metrics :=
  ⟨by decide, (calculate_aggregated_metrics_appends dummyKernel "ocr" 60 epochTs
    sampleMonState).2.2 (by decide)⟩

/-- Claim C6 counterexample: with a 90-minute window, the timestamps 00:10
and 01:10 truncate to the same multiple of 90 minutes (both to 0), yet the
grouping puts them into two distinct buckets, and the bucket start assigned
to 01:10 is minute 60 of the day, not the truncated multiple 0: the code
truncates only the minute within the hour. -/
theorem grouping_differs_from_multiple_truncation :
    (Timestamp.toMinutes ⟨0, 0, 10, 0, 0⟩) / 90 * 90 =
      (Timestamp.toMinutes ⟨0, 1, 10, 0, 0⟩) / 90 * 90 ∧
    (group_into_windows [predAt ⟨0, 0, 10, 0, 0⟩, predAt ⟨0, 1, 10, 0, 0⟩]
      90).length = 2 ∧
    (windowStart ⟨0, 1, 10, 0, 0⟩ 90).toMinutes = 60 ∧
    (Timestamp.toMinutes ⟨0, 1, 10, 0, 0⟩) / 90 * 90 = 0 := by
  refine ⟨by decide, by decide, by decide, by decide⟩

theorem addToWindow_inv (ws : Nat) (key : Timestamp) (p : ModelPrediction)
    (hkey : key = windowStart p.timestamp ws) :
    ∀ (acc : List (Timestamp × List ModelPrediction)),
      (∀ b ∈ acc, b.2 ≠ [] ∧ ∀ q ∈ b.2, windowStart q.timestamp ws = b.1) →
      ∀ b ∈ addToWindow acc key p,
        b.2 ≠ [] ∧ ∀ q ∈ b.2, windowStart q.timestamp ws = b.1 := by
  intro acc
  induction acc with
  | nil =>
    intro _ b hb
    simp only [addToWindow, List.mem_singleton] at hb
    subst hb
    refine ⟨by simp, ?_⟩
    intro q hq
    simp only [List.mem_singleton] at hq
    subst hq
    exact hkey.symm
  | cons x rest ih =>
    obtain ⟨k, ps⟩ := x
    intro hinv b hb
    unfold addToWindow at hb
    by_cases hk : k = key
    · rw [if_pos hk] at hb
      rcases List.mem_cons.mp hb with hb1 | hb2
      · subst hb1
        refine ⟨by simp, ?_⟩
        intro q hq
        rcases List.mem_append.mp hq with h | h
        · exact (hinv (k, ps) (List.mem_cons_self _ _)).2 q h
        · simp only [List.mem_singleton] at h
          subst h
          rw [hk]
          exact hkey.symm
      · exact hinv b (List.mem_cons_of_mem _ hb2)
    · rw [if_neg hk] at hb
      rcases List.mem_cons.mp hb with hb1 | hb2
      · subst hb1
        exact hinv (k, ps) (List.mem_cons_self _ _)
      · exact ih (fun c hc => hinv c (List.mem_cons_of_mem _ hc)) b hb2

theorem group_into_windows_inv (ws : Nat) (preds : List ModelPrediction) :
    ∀ b ∈ group_into_windows preds ws,
      b.2 ≠ [] ∧ ∀ p ∈ b.2, windowStart p.timestamp ws = b.1 := by
  have main : ∀ (ps : List ModelPrediction)
      (acc : List (Timestamp × List ModelPrediction)),
      (∀ b ∈ acc, b.2 ≠ [] ∧ ∀ q ∈ b.2, windowStart q.timestamp ws = b.1) →
      ∀ b ∈ ps.foldl
        (fun a p => addToWindow a (windowStart p.timestamp ws) p) acc,
        b.2 ≠ [] ∧ ∀ q ∈ b.2, windowStart q.timestamp ws = b.1 := by
    intro ps
    induction ps with
    | nil => intro acc h; exact h
    | cons p rest ih =>
      intro acc h
      exact ih _ (addToWindow_inv ws _ p rfl acc h)
  intro b hb
  exact main preds [] (by intro c hc; exact absurd hc (List.not_mem_nil c)) b hb

/-- Claim C6 (amended): the bucket key truncates only the minute within the
hour (second and microsecond zeroed); this coincides with truncation of the
timestamp down to the nearest multiple of the window size exactly when the
window size divides 60.  Under that divisibility every bucket's start is the
truncated multiple, every prediction lands in the bucket whose start
truncates its own timestamp, and buckets with zero samples are omitted. -/
theorem window_bucketing (ws : Nat) (hpos : 0 < ws) (hdvd : ws ∣ 60) :
    (∀ t : Timestamp, (windowStart t ws).toMinutes = t.toMinutes / ws * ws) ∧
    (∀ preds : List ModelPrediction, ∀ b ∈ group_into_windows preds ws,
      b.2 ≠ [] ∧ ∀ p ∈ b.2, windowStart p.timestamp ws = b.1) := by
  constructor
  · intro t
    have key : ∀ (H m : Nat), (H * 60 + m) / ws * ws = H * 60 + m / ws * ws := by
      intro H m
      obtain ⟨c, hc⟩ := hdvd
      rw [hc]
      rw [show H * (ws * c) + m = m + ws * (H * c) by ring]
      rw [Nat.add_mul_div_left _ _ hpos]
      ring
    have ht : t.toMinutes = (t.day * 24 + t.hour) * 60 + t.minute := by
      unfold Timestamp.toMinutes
      ring
    have hw : (windowStart t ws).toMinutes =
        (t.day * 24 + t.hour) * 60 + t.minute / ws * ws := by
      unfold windowStart Timestamp.toMinutes
      dsimp only
      ring
    rw [hw, ht]
    exact (key (t.day * 24 + t.hour) t.minute).symm
  · intro preds
    exact group_into_windows_inv ws preds

/-- Witness for the amended C6 with the 60-minute window of the source
default. -/
theorem window_bucketing_witness :
    0 < 60 ∧ (60 ∣ 60) ∧
    (windowStart ⟨0, 2, 35, 4, 5⟩ 60).toMinutes =
      (Timestamp.toMinutes ⟨0, 2, 35, 4, 5⟩) / 60 * 60 :=
  ⟨by decide, by decide,
    (window_bucketing 60 (by decide) (by decide)).1 ⟨0, 2, 35, 4, 5⟩⟩

/-
Embedding of DriftDetectionService in drift_detection_service.py.
-/

/-- The period descriptor stored in DriftDetection.baseline_period and
current_period (sample count for data drift, standard deviation for
prediction drift). -/
structure PeriodSummary where
  period_start : Timestamp
  period_end : Timestamp
  samples : Option Nat
  mean_confidence : ℚ
  std_confidence : Option ℚ
deriving DecidableEq, Repr

/-- One row of the `drift_detections` table (`DriftDetection`). -/
structure DriftDetection where
  detection_id : String
  model_name : String
  model_version : String
  drift_type : String
  drift_score : ℚ
  threshold : ℚ
  test_statistic : Option ℚ
  p_value : Option ℚ
  baseline_period : PeriodSummary
  current_period : PeriodSummary
deriving DecidableEq, Repr

/-- The tables the drift service reads and writes. -/
structure DriftState where
  predictions : List ModelPrediction
  detections : List DriftDetection
deriving Repr

/-- Embeds `DriftDetectionService.MIN_SAMPLES`. -/
def MIN_SAMPLES : Nat := 100

/-- Embeds `DriftDetectionService.DATA_DRIFT_THRESHOLD` (PSI threshold). -/
def DATA_DRIFT_THRESHOLD : ℚ := 5/100

/-- Embeds `DriftDetectionService.PREDICTION_DRIFT_THRESHOLD`. -/
def PREDICTION_DRIFT_THRESHOLD : ℚ := 10/100

/-- The `ModelPrediction.query.filter(name, range_start <= ts < range_end)`
query both detection modes issue. -/
def predsInRange (preds : List ModelPrediction) (model_name : String)
    (range_start range_end : Timestamp) : List ModelPrediction :=
  preds.filter (fun p =>
    p.model_name == model_name &&
    decide (range_start.sortKey ≤ p.timestamp.sortKey) &&
    decide (p.timestamp.sortKey < range_end.sortKey))

/-- Embeds `[p.confidence_score for p in preds if p.confidence_score]`: Python
truthiness drops both None and 0.0 confidences. -/
def truthyConfidences (preds : List ModelPrediction) : List ℚ :=
  preds.filterMap (fun p =>
    match p.confidence_score with
    | some c => if c ≠ 0 then some c else none
    | none => none)

/-- Embeds `DriftDetectionService.detect_data_drift`.  The PSI computation
`_calculate_psi` (numpy histogram plus natural logarithm) is the abstract
kernel `psi`; `detection_id` stands for the uuid-based
`_generate_detection_id()`. -/
def detect_data_drift (psi : List ℚ → List ℚ → ℚ) (detection_id : String)
    (model_name model_version : String)
    (baseline_start baseline_end current_start current_end : Timestamp)
    (s : DriftState) : Option DriftDetection × DriftState :=
  let baseline_preds := predsInRange s.predictions model_name baseline_start baseline_end
  let current_preds := predsInRange s.predictions model_name current_start current_end
  if baseline_preds.length < MIN_SAMPLES ∨ current_preds.length < MIN_SAMPLES then
    (none, s)
  else
    let baseline_confidences := truthyConfidences baseline_preds
    let current_confidences := truthyConfidences current_preds
    let psi_score := psi baseline_confidences current_confidences
    if psi_score > DATA_DRIFT_THRESHOLD then
      let detection : DriftDetection :=
        { detection_id := detection_id
          model_name := model_name
          model_version := model_version
          drift_type := "DATA_DRIFT"
          drift_score := psi_score
          threshold := DATA_DRIFT_THRESHOLD
          test_statistic := none
          p_value := none
          baseline_period :=
            { period_start := baseline_start
              period_end := baseline_end
              samples := some baseline_preds.length
              mean_confidence := listMean baseline_confidences
              std_confidence := none }
          current_period :=
            { period_start := current_start
              period_end := current_end
              samples := some current_preds.length
              mean_confidence := listMean current_confidences
              std_confidence := none } }
      (some detection, { s with detections := s.detections ++ [detection] })
    else
      (none, s)

/-- Embeds `DriftDetectionService.detect_prediction_drift`.  The three instants
stand for `utcnow - lookback_days`, `utcnow - lookback_days / 2` and
`utcnow`; the scipy KS test is the abstract kernel `ks`, returning
(statistic, p-value), and `np.std` is the abstract kernel `stdK`. -/
def detect_prediction_drift (ks : List ℚ → List ℚ → ℚ × ℚ)
    (stdK : List ℚ → ℚ) (detection_id : String)
    (model_name model_version : String)
    (start_time mid_time end_time : Timestamp) (s : DriftState) :
    Option DriftDetection × DriftState :=
  let early_preds := predsInRange s.predictions model_name start_time mid_time
  let recent_preds := predsInRange s.predictions model_name mid_time end_time
  if early_preds.length < MIN_SAMPLES ∨ recent_preds.length < MIN_SAMPLES then
    (none, s)
  else
    let early_confidences := truthyConfidences early_preds
    let recent_confidences := truthyConfidences recent_preds
    let statistic := (ks early_confidences recent_confidences).1
    let p_value := (ks early_confidences recent_confidences).2
    if p_value < 5/100 then
      let drift_score := statistic
      if drift_score > PREDICTION_DRIFT_THRESHOLD then
        let detection : DriftDetection :=
          { detection_id := detection_id
            model_name := model_name
            model_version := model_version
            drift_type := "PREDICTION_DRIFT"
            drift_score := drift_score
            threshold := PREDICTION_DRIFT_THRESHOLD
            test_statistic := some statistic
            p_value := some p_value
            baseline_period :=
              { period_start := start_time
                period_end := mid_time
                samples := none
                mean_confidence := listMean early_confidences
                std_confidence := some (stdK early_confidences) }
            current_period :=
              { period_start := mid_time
                period_end := end_time
                samples := none
                mean_confidence := listMean recent_confidences
                std_confidence := some (stdK recent_confidences) } }
        (some detection, { s with detections := s.detections ++ [detection] })
      else (none, s)
    else (none, s)

/-- Claim C7: in both detection modes, a call with fewer than the minimum
100 samples on either side returns no detection and leaves the detections
table unchanged: no DriftDetection record is created or persisted, whatever
the statistical kernels compute. -/
theorem drift_insufficient_samples_no_record (psi : List ℚ → List ℚ → ℚ)
    (ks : List ℚ → List ℚ → ℚ × ℚ) (stdK : List ℚ → ℚ)
    (id1 id2 model_name model_version : String)
    (b_start b_end c_start c_end start_time mid_time end_time : Timestamp)
    (s : DriftState)
    (h1 : (predsInRange s.predictions model_name b_start b_end).length < 100 ∨
      (predsInRange s.predictions model_name c_start c_end).length < 100)
    (h2 : (predsInRange s.predictions model_name start_time mid_time).length < 100 ∨
      (predsInRange s.predictions model_name mid_time end_time).length < 100) :
    detect_data_drift psi id1 model_name model_version
      b_start b_end c_start c_end s = (none, s) ∧
    detect_prediction_drift ks stdK id2 model_name model_version
      start_time mid_time end_time s = (none, s) := by
  constructor
  · unfold detect_data_drift MIN_SAMPLES
    dsimp only
    rw [if_pos h1]
  · unfold detect_prediction_drift MIN_SAMPLES
    dsimp only
    rw [if_pos h2]

/-- Witness for C7: an empty prediction store is below the minimum on every
side; both modes return none and persist nothing. -/
theorem drift_insufficient_samples_no_record_witness :
    ((predsInRange ([] : List ModelPrediction) "ocr" epochTs epochTs).length < 100 ∨
      (predsInRange ([] : List ModelPrediction) "ocr" epochTs epochTs).length < 100) ∧
    detect_data_drift (fun _ _ => 1) "D1" "ocr" "2"
      epochTs epochTs epochTs epochTs ⟨[], []⟩ = (none, ⟨[], []⟩) ∧
    detect_prediction_drift (fun _ _ => (1, 0)) (fun _ => 0) "D2" "ocr" "2"
      epochTs epochTs epochTs ⟨[], []⟩ = (none, ⟨[], []⟩) :=
  ⟨Or.inl (by decide),
    (drift_insufficient_samples_no_record (fun _ _ => 1) (fun _ _ => (1, 0))
      (fun _ => 0) "D1" "D2" "ocr" "2" epochTs epochTs epochTs epochTs
      epochTs epochTs epochTs ⟨[], []⟩ (Or.inl (by decide))
      (Or.inl (by decide))).1,
    (drift_insufficient_samples_no_record (fun _ _ => 1) (fun _ _ => (1, 0))
      (fun _ => 0) "D1" "D2" "ocr" "2" epochTs epochTs epochTs epochTs
      epochTs epochTs epochTs ⟨[], []⟩ (Or.inl (by decide))
      (Or.inl (by decide))).2⟩

/-
Embedding of AlertManager in production_monitoring.py.
-/

/-- A JSON-ish metric value as produced by
`MetricsCollector.get_current_metrics`: numeric leaves, the boolean carried
by drift results, and nested dicts. -/
inductive MVal
  | num (q : ℚ)
  | bool (b : Bool)
  | obj (fields : List (String × MVal))

/-- An alert rule: metric path, threshold, comparison operator, severity and
cooldown, as in `_initialize_alert_rules`. -/
structure AlertRule where
  metric : String
  threshold : MVal
  comparison : String
  severity : String
  cooldown_minutes : Nat

/-- Embeds `AlertManager._initialize_alert_rules`: the fixed rule set. -/
def alert_rules : List (String × AlertRule) :=
  [("high_error_rate",
    { metric := "error_rate"
      threshold := MVal.num (5/100)
      comparison := "greater"
      severity := "high"
      cooldown_minutes := 15 }),
   ("slow_response_time",
    { metric := "response_time.p95"
      threshold := MVal.num 2000
      comparison := "greater"
      severity := "medium"
      cooldown_minutes := 10 }),
   ("low_confidence",
    { metric := "confidence.mean"
      threshold := MVal.num (75/100)
      comparison := "less"
      severity := "medium"
      cooldown_minutes := 30 }),
   ("drift_detected",
    { metric := "drift.detected"
      threshold := MVal.bool true
      comparison := "equals"
      severity := "high"
      cooldown_minutes := 60 })]

/-- Embeds `rule["metric"].split(".")`. -/
def splitPathAux : List Char → List Char → List String
  | [], acc => [String.mk acc.reverse]
  | c :: rest, acc =>
    if c = '.' then String.mk acc.reverse :: splitPathAux rest []
    else splitPathAux rest (c :: acc)

/-- Split a metric path on dots. -/
def splitPath (s : String) : List String := splitPathAux s.data []

/-- An Alert record (production_monitoring.Alert).  The alert id joins the
rule name with the firing time, as `_create_alert` builds it; `rule_name`
keeps the rule that fired it (the source recovers it from the id by
substring matching).  The generated human-readable title and description are
presentation-only strings and omitted here.  Time is in whole minutes. -/
structure Alert where
  alert_id : String
  rule_name : String
  severity : String
  metric_name : String
  current_value : ℚ
  threshold_value : ℚ
  timestamp : ℤ
  acknowledged : Bool
deriving DecidableEq, Repr

/-- Bool-valued prefix test on character lists. -/
def isPrefixList : List Char → List Char → Bool
  | [], _ => true
  | _ :: _, [] => false
  | c :: cs, d :: ds => c == d && isPrefixList cs ds

/-- Bool-valued substring test on character lists. -/
def isSubstrList (needle : List Char) : List Char → Bool
  | [] => needle.isEmpty
  | d :: ds => isPrefixList needle (d :: ds) || isSubstrList needle ds

/-- Python `needle in haystack` on strings, as `_is_in_cooldown` uses in
`rule_name in a.alert_id`. -/
def strContains (haystack needle : String) : Bool :=
  isSubstrList needle.data haystack.data

/-- Dict lookup on a metric value (None when absent or not a dict). -/
def MVal.lookup (v : MVal) (key : String) : Option MVal :=
  match v with
  | MVal.obj fields =>
    (match fields.find? (fun f => f.1 == key) with
     | some f => some f.2
     | none => none)
  | _ => none

/-- The navigation loop of `_check_threshold`: a missing key or a non-dict
intermediate makes the whole check fail. -/
def navigate : MVal → List String → Option MVal
  | metrics, [] => some metrics
  | metrics, k :: rest =>
    match metrics.lookup k with
    | some v => navigate v rest
    | none => none

/-- Numeric view of a value, matching Python where bool is an int
(True == 1, and True compares equal to 1.0). -/
def MVal.asNum : MVal → Option ℚ
  | MVal.num q => some q
  | MVal.bool b => some (if b then 1 else 0)
  | MVal.obj _ => none

/-- The comparison at the end of `_check_threshold`. -/
def compareVal (comparison : String) (value threshold : MVal) : Bool :=
  match value.asNum, threshold.asNum with
  | some a, some b =>
    if comparison = "greater" then decide (a > b)
    else if comparison = "less" then decide (a < b)
    else if comparison = "equals" then decide (a = b)
    else false
  | _, _ => false

/-- Embeds `AlertManager._check_threshold`: drift-type rules short-circuit to the
drift result's detected flag; all others navigate the metrics dict and
compare. -/
def check_threshold (rule : AlertRule) (metrics : MVal)
    (drift_result : Option Bool) : Bool :=
  let metric_path := splitPath rule.metric
  match metric_path with
  | "drift" :: _ =>
    (match drift_result with
     | none => false
     | some d => d)
  | path =>
    (match navigate metrics path with
     | some value => compareVal rule.comparison value rule.threshold
     | none => false)

/-- Embeds `self.alert_rules[rule_name].get("cooldown_minutes", 0)`. -/
def ruleCooldown (rules : List (String × AlertRule)) (rule_name : String) : Nat :=
  match rules.find? (fun r => r.1 == rule_name) with
  | some r => r.2.cooldown_minutes
  | none => 0

/-- The cooldown of a rule under the fixed rule set. -/
def cooldownOf (rule_name : String) : Nat := ruleCooldown alert_rules rule_name

/-- The history entries whose id contains the rule name
(`rule_name in a.alert_id`). -/
def matchingAlerts (history : List Alert) (rule_name : String) : List Alert :=
  history.filter (fun a => strContains a.alert_id rule_name)

/-- Embeds `max(recent_alerts, key=lambda x: x.timestamp)` (first maximum wins
ties, as in Python). -/
def maxByTimestamp (a : Alert) (rest : List Alert) : Alert :=
  rest.foldl (fun best x => if x.timestamp > best.timestamp then x else best) a

/-- Embeds `AlertManager._is_in_cooldown`. -/
def is_in_cooldown (rules : List (String × AlertRule)) (history : List Alert)
    (rule_name : String) (now : ℤ) : Bool :=
  let cooldown_minutes := ruleCooldown rules rule_name
  match matchingAlerts history rule_name with
  | [] => false
  | a :: rest =>
    decide (now - (maxByTimestamp a rest).timestamp < (cooldown_minutes : ℤ))

/-- The `_create_alert` value navigation: `.get(key, 0)` on dicts, a
non-dict intermediate passes through unchanged. -/
def navStep (v : MVal) (key : String) : MVal :=
  match v with
  | MVal.obj fields =>
    (match fields.find? (fun f => f.1 == key) with
     | some f => f.2
     | none => MVal.num 0)
  | other => other

/-- Embeds `AlertManager._create_alert`. -/
def create_alert (rule_name : String) (rule : AlertRule) (metrics : MVal)
    (now : ℤ) : Alert :=
  let metric_path := splitPath rule.metric
  let current_value := (metric_path.foldl navStep metrics).asNum.getD 0
  { alert_id := rule_name ++ "_" ++ toString now
    rule_name := rule_name
    severity := rule.severity
    metric_name := rule.metric
    current_value := current_value
    threshold_value := rule.threshold.asNum.getD 0
    timestamp := now
    acknowledged := false }

/-- AlertManager state: the active-alerts dict (insertion ordered) and the
alert history used for cooldowns. -/
structure AlertManagerState where
  active_alerts : List (String × Alert)
  alert_history : List Alert
deriving Repr

/-- One iteration of the rule loop in `evaluate_alerts`: skip when in
cooldown, else fire when the threshold check holds, appending to the active
dict, the history and the returned new alerts. -/
def evalRule (metrics : MVal) (drift_result : Option Bool) (now : ℤ)
    (st : AlertManagerState × List Alert) (r : String × AlertRule) :
    AlertManagerState × List Alert :=
  if is_in_cooldown alert_rules st.1.alert_history r.1 now then st
  else if check_threshold r.2 metrics drift_result then
    let alert := create_alert r.1 r.2 metrics now
    ({ active_alerts := st.1.active_alerts ++ [(alert.alert_id, alert)]
       alert_history := st.1.alert_history ++ [alert] }, st.2 ++ [alert])
  else st

/-- Embeds `AlertManager.evaluate_alerts`: walks the fixed rule set in order. -/
def evaluate_alerts (now : ℤ) (metrics : MVal) (drift_result : Option Bool)
    (s : AlertManagerState) : AlertManagerState × List Alert :=
  alert_rules.foldl (evalRule metrics drift_result now) (s, [])

/-- A sequence of `evaluate_alerts` calls, each with its own clock reading,
metrics and drift result. -/
def runEvals (calls : List (ℤ × MVal × Option Bool))
    (s : AlertManagerState) : AlertManagerState :=
  calls.foldl (fun st c => (evaluate_alerts c.1 c.2.1 c.2.2 st).1) s

/-- Every alert the manager creates carries its rule name inside its id. -/
def WFAlert (a : Alert) : Prop :=
  strContains a.alert_id a.rule_name = true

/-- History invariant: ids are well formed, and any later alert for the same
rule fires at least that rule's cooldown after any earlier one. -/
def HistInv (h : List Alert) : Prop :=
  (∀ a ∈ h, WFAlert a) ∧
  h.Pairwise (fun x y => x.rule_name = y.rule_name →
    (cooldownOf x.rule_name : ℤ) ≤ y.timestamp - x.timestamp)

theorem isPrefixList_self_append (n t : List Char) :
    isPrefixList n (n ++ t) = true := by
  induction n with
  | nil => rfl
  | cons c cs ih => simp [isPrefixList, ih]

theorem isSubstrList_self_append (n t : List Char) :
    isSubstrList n (n ++ t) = true := by
  cases n with
  | nil =>
    cases t with
    | nil => rfl
    | cons d ds => simp [isSubstrList, isPrefixList]
  | cons c cs =>
    show isSubstrList (c :: cs) (c :: (cs ++ t)) = true
    unfold isSubstrList
    have h := isPrefixList_self_append (c :: cs) t
    rw [List.cons_append] at h
    rw [h]
    simp

theorem create_alert_wf (rule_name : String) (rule : AlertRule)
    (metrics : MVal) (now : ℤ) :
    WFAlert (create_alert rule_name rule metrics now) := by
  unfold WFAlert create_alert strContains
  dsimp only
  rw [String.data_append, String.data_append, List.append_assoc]
  exact isSubstrList_self_append rule_name.data _

theorem maxByTimestamp_ge (rest : List Alert) : ∀ (a : Alert), ∀ x ∈ a :: rest,
    x.timestamp ≤ (maxByTimestamp a rest).timestamp := by
  induction rest with
  | nil =>
    intro a x hx
    simp only [List.mem_singleton] at hx
    subst hx
    exact le_refl _
  | cons y rest ih =>
    intro a x hx
    have hstep : maxByTimestamp a (y :: rest) =
        maxByTimestamp (if y.timestamp > a.timestamp then y else a) rest := rfl
    have hb1 : a.timestamp ≤ (if y.timestamp > a.timestamp then y else a).timestamp := by
      split <;> omega
    have hb2 : y.timestamp ≤ (if y.timestamp > a.timestamp then y else a).timestamp := by
      split <;> omega
    rw [hstep]
    rcases List.mem_cons.mp hx with h1 | hx2
    · subst h1
      exact le_trans hb1 (ih _ _ (List.mem_cons_self _ _))
    · rcases List.mem_cons.mp hx2 with h2 | h3
      · subst h2
        exact le_trans hb2 (ih _ _ (List.mem_cons_self _ _))
      · exact ih _ x (List.mem_cons_of_mem _ h3)

theorem cooldown_false_spacing (h : List Alert) (rn : String) (now : ℤ)
    (hwf : ∀ a ∈ h, WFAlert a)
    (hcd : is_in_cooldown alert_rules h rn now = false) :
    ∀ x ∈ h, x.rule_name = rn → (cooldownOf rn : ℤ) ≤ now - x.timestamp := by
  intro x hx hxr
  have hpx : strContains x.alert_id rn = true := by
    have hw := hwf x hx
    unfold WFAlert at hw
    rw [hxr] at hw
    exact hw
  have hxm : x ∈ matchingAlerts h rn := List.mem_filter.mpr ⟨hx, hpx⟩
  unfold is_in_cooldown at hcd
  dsimp only at hcd
  cases hm : matchingAlerts h rn with
  | nil =>
    rw [hm] at hxm
    exact absurd hxm (List.not_mem_nil x)
  | cons a rest =>
    rw [hm] at hcd hxm
    dsimp only at hcd
    have hlt := of_decide_eq_false hcd
    have hle := maxByTimestamp_ge rest a x hxm
    unfold cooldownOf
    omega

theorem evalRule_inv (metrics : MVal) (drift_result : Option Bool) (now : ℤ)
    (st : AlertManagerState × List Alert) (r : String × AlertRule)
    (hinv : HistInv st.1.alert_history) :
    HistInv ((evalRule metrics drift_result now st r).1.alert_history) := by
  unfold evalRule
  split
  · exact hinv
  next hcd =>
    split
    · dsimp only
      constructor
      · intro a ha
        rcases List.mem_append.mp ha with h1 | h2
        · exact hinv.1 a h1
        · simp only [List.mem_singleton] at h2
          subst h2
          exact create_alert_wf r.1 r.2 metrics now
      · rw [List.pairwise_append]
        refine ⟨hinv.2, by simp, ?_⟩
        intro x hx y hy
        simp only [List.mem_singleton] at hy
        subst hy
        intro hrule
        have hxr : x.rule_name = r.1 := hrule
        have hcdf : is_in_cooldown alert_rules st.1.alert_history r.1 now = false :=
          Bool.not_eq_true _ ▸ Bool.of_not_eq_true hcd
        have hspace := cooldown_false_spacing st.1.alert_history r.1 now
          hinv.1 hcdf x hx hxr
        rw [hxr]
        exact hspace
    · exact hinv

theorem evalFold_inv (metrics : MVal) (drift_result : Option Bool) (now : ℤ) :
    ∀ (rs : List (String × AlertRule)) (st : AlertManagerState × List Alert),
      HistInv st.1.alert_history →
      HistInv ((rs.foldl (evalRule metrics drift_result now) st).1.alert_history) := by
  intro rs
  induction rs with
  | nil => intro st h; exact h
  | cons r rest ih =>
    intro st h
    exact ih _ (evalRule_inv metrics drift_result now st r h)

theorem evaluate_alerts_inv (now : ℤ) (metrics : MVal)
    (drift_result : Option Bool) (s : AlertManagerState)
    (h : HistInv s.alert_history) :
    HistInv ((evaluate_alerts now metrics drift_result s).1.alert_history) :=
  evalFold_inv metrics drift_result now alert_rules (s, []) h

theorem runEvals_inv (calls : List (ℤ × MVal × Option Bool)) :
    ∀ (s : AlertManagerState), HistInv s.alert_history →
      HistInv ((runEvals calls s).alert_history) := by
  induction calls with
  | nil => intro s h; exact h
  | cons c rest ih =>
    intro s h
    exact ih _ (evaluate_alerts_inv c.1 c.2.1 c.2.2 s h)

/-- Claim C9: starting from a fresh manager, across any sequence of
evaluate_alerts calls (whatever metrics and drift results each sees, even
with the triggering condition holding every time), two distinct alerts
recorded for the same rule are always at least that rule's cooldown apart:
a rule still within the cooldown of its most recent alert is skipped. -/
theorem alert_cooldown_spacing (calls : List (ℤ × MVal × Option Bool))
    (a b : Alert)
    (ha : a ∈ (runEvals calls ⟨[], []⟩).alert_history)
    (hb : b ∈ (runEvals calls ⟨[], []⟩).alert_history)
    (hrule : a.rule_name = b.rule_name) (hne : a ≠ b) :
    (cooldownOf a.rule_name : ℤ) ≤ |a.timestamp - b.timestamp| := by
  have hinv := runEvals_inv calls ⟨[], []⟩
    ⟨by intro x hx; exact absurd hx (List.not_mem_nil x), List.Pairwise.nil⟩
  have hpair : (runEvals calls ⟨[], []⟩).alert_history.Pairwise
      (fun x y => x.rule_name = y.rule_name →
        (cooldownOf x.rule_name : ℤ) ≤ |x.timestamp - y.timestamp|) := by
    refine List.Pairwise.imp ?_ hinv.2
    intro x y hxy hr
    have hbase := hxy hr
    have habs : y.timestamp - x.timestamp ≤ |y.timestamp - x.timestamp| :=
      le_abs_self _
    rw [abs_sub_comm] at habs
    exact le_trans hbase habs
  have hsym : Symmetric (fun x y : Alert => x.rule_name = y.rule_name →
      (cooldownOf x.rule_name : ℤ) ≤ |x.timestamp - y.timestamp|) := by
    intro x y hxy hr
    rw [hr, abs_sub_comm]
    exact hxy hr.symm
  exact List.Pairwise.forall hsym hpair ha hb hne hrule

/-- Metrics with no matching numeric entries; only the drift rule can
fire. -/
def demoCalls : List (ℤ × MVal × Option Bool) :=
  [(0, MVal.obj [], some true), (100, MVal.obj [], some true)]

/-- The drift alert the manager creates at the given minute. -/
def demoAlertAt (t : ℤ) : Alert :=
  { alert_id := "drift_detected_" ++ toString t
    rule_name := "drift_detected"
    severity := "high"
    metric_name := "drift.detected"
    current_value := 0
    threshold_value := 1
    timestamp := t
    acknowledged := false }

/-- Witness for C9: two evaluations 100 minutes apart with a persisting
drift condition fire the drift rule twice; the spacing theorem applies to
the two recorded alerts. -/
theorem alert_cooldown_spacing_witness :
    (demoAlertAt 0).rule_name = (demoAlertAt 100).rule_name ∧
    demoAlertAt 0 ≠ demoAlertAt 100 ∧
    (cooldownOf (demoAlertAt 0).rule_name : ℤ) ≤
      |(demoAlertAt 0).timestamp - (demoAlertAt 100).timestamp| :=
  ⟨rfl, by decide,
    alert_cooldown_spacing demoCalls (demoAlertAt 0) (demoAlertAt 100)
      (by decide) (by decide) rfl (by decide)⟩

end HealthFlow
